import Mathlib

/-!
# Verification of `wayland_client_demo.c`

A shallow embedding of `src/wayland_client_gles_demo/wayland_client_demo.c`,
a minimal Wayland client that opens an xdg-shell toplevel window, obtains a
GLES2 context through EGL, and renders an animated solid clear color.

The program is a straight-line setup phase followed by an infinite render
loop.  We model it as a trace-producing state machine:

* `Act` enumerates the external library calls the program performs, in order.
* `WinState` models the mutable globals `width`, `height`, `configured` and
  the nullness of `egl_window` / `egl_display` / `egl_surface`.
* Wayland event handlers (`xdg_surface_configure`, `xdg_toplevel_configure`,
  `xdg_wm_base_ping`, `xdg_toplevel_close`, `decoration_configure`) become
  functions from state and event payload to a new state, a list of emitted
  calls, and an optional process-exit code (for `exit(0)` in the close
  handler).
* The setup phase (`mainSetup`) threads an environment `SetupEnv` recording
  which library calls succeed and which registry globals the compositor
  advertises; each failure branch of the C code becomes an `Except.error`
  carrying the `fprintf(stderr, ...)` message and the exit status.
* The render loop (`runLoop`) consumes a list of per-iteration pending event
  queues; the C loop is infinite, so a run of any finite prefix is modeled
  by supplying finitely many queues.

The clear color is computed in the C source from an accumulating phase
`t += 0.016` per iteration; we model the phase exactly as a rational number
and the color components as real numbers `sin(phase)*0.5 + 0.5` (the ideal
real semantics of the C double computation).  The `glClearColor` action
records the rational phase so that traces stay computable; the real-valued
color submitted at phase `t` is `clearColor t`.
-/

namespace WaylandDemo

/-- One external library call performed by the program.  Constructor names
follow the C functions being called.  `wl_registry_bind` records the
interface name and the version passed to the bind; `glViewport` records the
size arguments; `glClearColor` records the rational animation phase `t`
(the submitted color is `clearColor t` below); `usleep` records the
microsecond argument. -/
inductive Act where
  | wl_display_connect
  | wl_display_get_registry
  | wl_registry_add_listener
  | wl_display_roundtrip
  | wl_registry_bind (interface : String) (version : Nat)
  | xdg_wm_base_add_listener
  | xdg_wm_base_pong (serial : Nat)
  | wl_compositor_create_surface
  | xdg_wm_base_get_xdg_surface
  | xdg_surface_add_listener
  | xdg_surface_get_toplevel
  | xdg_toplevel_add_listener
  | xdg_toplevel_set_title (title : String)
  | zxdg_get_toplevel_decoration
  | zxdg_decoration_add_listener
  | zxdg_set_mode (mode : Nat)
  | wl_surface_commit
  | xdg_surface_ack_configure (serial : Nat)
  | wl_egl_window_resize (w h : Int)
  | eglGetDisplayCall
  | eglInitializeCall
  | eglChooseConfigCount
  | eglChooseConfigFill
  | eglCreateContextCall
  | wl_egl_window_create (w h : Int)
  | eglCreateWindowSurfaceCall
  | eglMakeCurrentCall
  | glViewport (w h : Int)
  | glClearColor (t : Rat)
  | glClear
  | eglSwapBuffers
  | wl_display_dispatch_pending
  | wl_display_flush
  | usleep (usec : Nat)
  | fprintf_stderr (msg : String)
  | zxdg_toplevel_decoration_destroy
  | zxdg_decoration_manager_destroy
  | eglMakeCurrentNull
  | eglDestroySurface
  | eglDestroyContext
  | eglTerminate
  | wl_egl_window_destroy
  | xdg_toplevel_destroy
  | xdg_surface_destroy
  | wl_surface_destroy
  | xdg_wm_base_destroy
  | wl_compositor_destroy
  | wl_registry_destroy
  | wl_display_disconnect
deriving DecidableEq, Repr

/-- The mutable globals of the C file that the event handlers touch:
`width`, `height`, `configured`, and whether `egl_window` is non-NULL
(`hasEglWindow`) and `egl_display`/`egl_surface` are both live (`eglLive`,
the guard `egl_display != EGL_NO_DISPLAY && egl_surface != EGL_NO_SURFACE`
on line 86 of the source). -/
structure WinState where
  width : Int
  height : Int
  configured : Bool
  hasEglWindow : Bool
  eglLive : Bool
deriving DecidableEq, Repr

/-- `static int width = 640; static int height = 480; static bool configured
= false;` together with the NULL initializers of the EGL globals. -/
def initState : WinState :=
  { width := 640, height := 480, configured := false,
    hasEglWindow := false, eglLive := false }

/-- xdg-decoration protocol constant (from the generated protocol header). -/
def ZXDG_TOPLEVEL_DECORATION_V1_MODE_CLIENT_SIDE : Nat := 1

/-- xdg-decoration protocol constant (from the generated protocol header). -/
def ZXDG_TOPLEVEL_DECORATION_V1_MODE_SERVER_SIDE : Nat := 2

/-- Events the compositor can deliver to this client's listeners. -/
inductive WEvent where
  | ping (serial : Nat)
  | surfaceConfigure (serial : Nat)
  | toplevelConfigure (w h : Int)
  | toplevelClose
  | decorationConfigure (mode : Nat)
deriving DecidableEq, Repr

/-- `xdg_wm_base_ping` (line 64): pong back the serial. -/
def xdg_wm_base_ping (serial : Nat) : List Act :=
  [.xdg_wm_base_pong serial]

/-- `xdg_surface_configure` (line 72): acknowledge the configure with the
serial that was received. -/
def xdg_surface_configure (serial : Nat) : List Act :=
  [.xdg_surface_ack_configure serial]

/-- `xdg_toplevel_configure` (lines 81-89): if `w > 0 && h > 0`, store the
new size, resize the EGL window if it exists, and update the GL viewport if
the EGL display and surface are live; in all cases set `configured = true`. -/
def xdg_toplevel_configure (s : WinState) (w h : Int) : WinState × List Act :=
  if 0 < w ∧ 0 < h then
    ({ s with width := w, height := h, configured := true },
      (if s.hasEglWindow then [.wl_egl_window_resize w h] else []) ++
      (if s.eglLive then [.glViewport w h] else []))
  else
    ({ s with configured := true }, [])

/-- `decoration_configure` (lines 100-116): log which mode the compositor
chose. -/
def decoration_configure (mode : Nat) : List Act :=
  if mode = ZXDG_TOPLEVEL_DECORATION_V1_MODE_SERVER_SIDE then
    [.fprintf_stderr "Decoration: compositor chose SERVER_SIDE (use SSD)\n"]
  else if mode = ZXDG_TOPLEVEL_DECORATION_V1_MODE_CLIENT_SIDE then
    [.fprintf_stderr "Decoration: compositor chose CLIENT_SIDE (fallback to CSD)\n"]
  else
    [.fprintf_stderr ("Decoration: unknown mode " ++ toString mode ++ "\n")]

/-- Dispatch of one event to its listener.  The third component is the exit
code when the handler terminates the process: only `xdg_toplevel_close`
(lines 90-93) does, via `exit(0)`. -/
def handleEvent (s : WinState) : WEvent → WinState × List Act × Option Nat
  | .ping serial => (s, xdg_wm_base_ping serial, none)
  | .surfaceConfigure serial => (s, xdg_surface_configure serial, none)
  | .toplevelConfigure w h =>
      let r := xdg_toplevel_configure s w h
      (r.1, r.2, none)
  | .toplevelClose => (s, [], some 0)
  | .decorationConfigure mode => (s, decoration_configure mode, none)

/-- `wl_display_dispatch_pending`: run the handlers for every already-queued
event, in order, without blocking.  If a handler exits the process, the
remaining events are not dispatched. -/
def dispatch_pending (s : WinState) : List WEvent → WinState × List Act × Option Nat
  | [] => (s, [], none)
  | e :: rest =>
      let r := handleEvent s e
      match r.2.2 with
      | some c => (r.1, r.2.1, some c)
      | none =>
          let r' := dispatch_pending r.1 rest
          (r'.1, r.2.1 ++ r'.2.1, r'.2.2)

/-- The animation phase after `k+1` iterations of `t += 0.016` starting
from `t = 0.0` (line 266/269 of the source), modeled exactly as a
rational. -/
def tPhase : Nat → Rat
  | 0 => 0.016
  | k + 1 => tPhase k + 0.016

/-- The clear color submitted at phase `t` (lines 270-272, 275):
`r = sin(t)*0.5 + 0.5`, `g = sin(t+2.0)*0.5 + 0.5`, `b = sin(t+4.0)*0.5 +
0.5`, alpha `1.0`, in ideal real arithmetic. -/
noncomputable def clearColor (t : Rat) : ℝ × ℝ × ℝ × ℝ :=
  (Real.sin (t : ℝ) * 0.5 + 0.5,
   Real.sin ((t : ℝ) + 2.0) * 0.5 + 0.5,
   Real.sin ((t : ℝ) + 4.0) * 0.5 + 0.5,
   1.0)

/-- One iteration of the main loop body (lines 267-286), at phase `t` (the
value of the C variable `t` after the `t += 0.016` at the top of the
iteration), with `evs` the events queued when `wl_display_dispatch_pending`
runs.  Returns the new state, the calls performed, and the exit code if a
handler terminated the process (in which case the trailing
`wl_display_flush` and `usleep` are not reached). -/
def loopIter (t : Rat) (s : WinState) (evs : List WEvent) :
    WinState × List Act × Option Nat :=
  let pre : List Act :=
    [.glViewport s.width s.height, .glClearColor t, .glClear,
     .eglSwapBuffers, .wl_display_dispatch_pending]
  let r := dispatch_pending s evs
  match r.2.2 with
  | some c => (r.1, pre ++ r.2.1, some c)
  | none => (r.1, pre ++ r.2.1 ++ [.wl_display_flush, .usleep 16000], none)

/-- Finitely many iterations of the (infinite) `while (true)` loop, one
pending-event queue per iteration.  `t` is the phase before the iteration's
`t += 0.016`.  The loop itself never returns: the run either exhausts the
supplied queues (third component `none`, the process is still running) or a
handler called `exit` (third component `some code`). -/
def runLoop (t : Rat) (s : WinState) :
    List (List WEvent) → WinState × List Act × Option Nat
  | [] => (s, [], none)
  | evs :: rest =>
      let t' := t + 0.016
      let r := loopIter t' s evs
      match r.2.2 with
      | some c => (r.1, r.2.1, some c)
      | none =>
          let r' := runLoop t' r.1 rest
          (r'.1, r.2.1 ++ r'.2.1, r'.2.2)

/-- Which of the static global interface pointers bound by the registry
listener are non-NULL. -/
structure Globals where
  compositor : Bool
  xdg_wm : Bool
  decoration_manager : Bool
deriving DecidableEq, Repr

/-- `registry_handle_global` (lines 122-132): bind `wl_compositor` (version
4), `xdg_wm_base` (version 1, plus its listener), or
`zxdg_decoration_manager_v1` (version 1), by interface name. -/
def registry_handle_global (g : Globals) (interface : String) : Globals × List Act :=
  if interface = "wl_compositor" then
    ({ g with compositor := true }, [.wl_registry_bind "wl_compositor" 4])
  else if interface = "xdg_wm_base" then
    ({ g with xdg_wm := true },
     [.wl_registry_bind "xdg_wm_base" 1, .xdg_wm_base_add_listener])
  else if interface = "zxdg_decoration_manager_v1" then
    ({ g with decoration_manager := true },
     [.wl_registry_bind "zxdg_decoration_manager_v1" 1])
  else (g, [])

/-- The registry roundtrip: the compositor announces the interfaces in
`anns` and the registry listener handles each in turn. -/
def bindGlobals (g : Globals) : List String → Globals × List Act
  | [] => (g, [])
  | i :: rest =>
      let r := registry_handle_global g i
      let r' := bindGlobals r.1 rest
      (r'.1, r.2 ++ r'.2)

/-- `create_window` (lines 142-162): create the `wl_surface`, the xdg
surface and toplevel with listeners and title, then — only if the
decoration manager global was bound — create the toplevel decoration
object, add its listener and request SERVER_SIDE mode; finally commit the
surface. -/
def create_window (hasDecorationManager : Bool) : List Act :=
  [.wl_compositor_create_surface, .xdg_wm_base_get_xdg_surface,
   .xdg_surface_add_listener, .xdg_surface_get_toplevel,
   .xdg_toplevel_add_listener,
   .xdg_toplevel_set_title "wayland-egl-demo (with xdg-decoration request)"] ++
  (if hasDecorationManager then
      [.zxdg_get_toplevel_decoration, .zxdg_decoration_add_listener,
       .zxdg_set_mode ZXDG_TOPLEVEL_DECORATION_V1_MODE_SERVER_SIDE]
    else []) ++
  [.wl_surface_commit]

/-- A setup failure: the message printed with `fprintf(stderr, ...)` and
the process exit status (`exit(1)` or `return 1`). -/
structure Failure where
  stderrMsg : String
  exitCode : Nat
deriving DecidableEq, Repr

/-- Which library calls succeed in this run and which registry globals the
compositor advertises.  `eglChooseConfigOk` models the combined check
`!eglChooseConfig(...) || n == 0` on line 187. -/
structure SetupEnv where
  displayOk : Bool
  announced : List String
  eglGetDisplayOk : Bool
  eglInitializeOk : Bool
  eglChooseConfigOk : Bool
  eglCreateContextOk : Bool
  eglWindowCreateOk : Bool
  eglCreateWindowSurfaceOk : Bool
  eglMakeCurrentOk : Bool
deriving DecidableEq, Repr

/-- `create_egl` (lines 164-221): get and initialize the EGL display,
choose a config (count then fill), create the context, the
`wl_egl_window` at the current `width`/`height`, the EGL window surface,
make the context current and set the viewport.  Each failing step prints to
stderr and calls `exit(1)`. -/
def create_egl (env : SetupEnv) (w h : Int) : Except Failure (List Act) :=
  if !env.eglGetDisplayOk then
    .error { stderrMsg := "Failed to get EGL display", exitCode := 1 }
  else if !env.eglInitializeOk then
    .error { stderrMsg := "Failed to initialize EGL", exitCode := 1 }
  else if !env.eglChooseConfigOk then
    .error { stderrMsg := "No EGL configs", exitCode := 1 }
  else if !env.eglCreateContextOk then
    .error { stderrMsg := "Failed to create EGL context", exitCode := 1 }
  else if !env.eglWindowCreateOk then
    .error { stderrMsg := "Failed to create wl_egl_window", exitCode := 1 }
  else if !env.eglCreateWindowSurfaceOk then
    .error { stderrMsg := "Failed to create EGL window surface", exitCode := 1 }
  else if !env.eglMakeCurrentOk then
    .error { stderrMsg := "Failed to make EGL context current", exitCode := 1 }
  else
    .ok [.eglGetDisplayCall, .eglInitializeCall, .eglChooseConfigCount,
         .eglChooseConfigFill, .eglCreateContextCall, .wl_egl_window_create w h,
         .eglCreateWindowSurfaceCall, .eglMakeCurrentCall, .glViewport w h]

/-- The setup phase of `main` (lines 242-263): connect to the display
(`return 1` with a message on failure), get the registry and add its
listener, roundtrip to bind the globals, check that `wl_compositor` and
`xdg_wm_base` were bound (`return 1` with a message otherwise), create the
window, roundtrip again so the compositor can configure us, and create the
EGL objects.  On success returns the full list of calls performed, in
order (the bind calls happen during the first `wl_display_roundtrip`; the
roundtrip act after them marks that roundtrip's completion). -/
def mainSetup (env : SetupEnv) : Except Failure (List Act) :=
  if !env.displayOk then
    .error { stderrMsg := "Failed to connect to Wayland display", exitCode := 1 }
  else
    let b := bindGlobals { compositor := false, xdg_wm := false,
                           decoration_manager := false } env.announced
    if !b.1.compositor || !b.1.xdg_wm then
      .error { stderrMsg := "Compositor or xdg_wm_base not available", exitCode := 1 }
    else
      match create_egl env initState.width initState.height with
      | .error f => .error f
      | .ok eglActs =>
          .ok ([.wl_display_connect, .wl_display_get_registry,
                .wl_registry_add_listener] ++ b.2 ++ [.wl_display_roundtrip] ++
               create_window b.1.decoration_manager ++
               [.wl_display_roundtrip] ++ eglActs)

/-- A run of the whole program: setup, then `streams.length` iterations of
the render loop.  A setup failure prints its message and exits with its
code; otherwise the loop starts at phase `t = 0.0` with the freshly created
EGL window and surface live.  The C loop is `while (true)` with no `break`
or normal exit, so the cleanup code after it (lines 289-307) is never
appended to any run's trace. -/
def mainRun (env : SetupEnv) (streams : List (List WEvent)) :
    List Act × Option Nat :=
  match mainSetup env with
  | .error f => ([.fprintf_stderr f.stderrMsg], some f.exitCode)
  | .ok setupActs =>
      let r := runLoop 0 { initState with hasEglWindow := true, eglLive := true }
        streams
      (setupActs ++ r.2.1, r.2.2)

/-- `destroy_egl` (lines 223-237): unbind the context, destroy surface and
context if present, terminate the display, destroy the `wl_egl_window`. -/
def destroy_egl (eglDisplayLive hasSurface hasContext hasWindow : Bool) : List Act :=
  (if eglDisplayLive then
      [.eglMakeCurrentNull] ++
      (if hasSurface then [.eglDestroySurface] else []) ++
      (if hasContext then [.eglDestroyContext] else []) ++
      [.eglTerminate]
    else []) ++
  (if hasWindow then [.wl_egl_window_destroy] else [])

/-- The cleanup code after the loop (lines 289-307): destroy the decoration
objects if present, tear down EGL, then destroy the xdg and Wayland objects
and disconnect, each guarded by a NULL check.  In the successful setup path
every handle is non-NULL, so this models that path with all guards true
except the decoration ones. -/
def cleanup_acts (g : Globals) : List Act :=
  (if g.decoration_manager then
      [.zxdg_toplevel_decoration_destroy, .zxdg_decoration_manager_destroy]
    else []) ++
  destroy_egl true true true true ++
  [.xdg_toplevel_destroy, .xdg_surface_destroy, .wl_surface_destroy,
   .xdg_wm_base_destroy, .wl_compositor_destroy, .wl_registry_destroy,
   .wl_display_disconnect]

/-- Whether the setup phase reaches the main loop (no failure branch taken). -/
def setupSucceeds (env : SetupEnv) : Bool :=
  match mainSetup env with
  | .ok _ => true
  | .error _ => false

/-- All conditions the setup phase requires, read off the source: the
display connects, the registry roundtrip binds `wl_compositor` and
`xdg_wm_base`, and every EGL step succeeds. -/
def setupOk (env : SetupEnv) : Bool :=
  env.displayOk &&
  (bindGlobals { compositor := false, xdg_wm := false,
                 decoration_manager := false } env.announced).1.compositor &&
  (bindGlobals { compositor := false, xdg_wm := false,
                 decoration_manager := false } env.announced).1.xdg_wm &&
  env.eglGetDisplayOk && env.eglInitializeOk && env.eglChooseConfigOk &&
  env.eglCreateContextOk && env.eglWindowCreateOk &&
  env.eglCreateWindowSurfaceOk && env.eglMakeCurrentOk

/-- The toplevel-configure behaviour exactly as the spec sentence words it:
when `w > 0` and `h > 0` the stored last-known size is updated to `(w, h)`,
and nothing else happens (no other state change, no emitted call). -/
def specToplevelConfigure (s : WinState) (w h : Int) : WinState :=
  if 0 < w ∧ 0 < h then { s with width := w, height := h } else s

/-- Which modeled calls block waiting on compositor events.
`wl_display_roundtrip` blocks until the compositor has processed all
pending requests; `wl_display_dispatch_pending` dispatches only events
already in the queue and returns without blocking (the source's own comment
on line 280 calls it non-blocking); `usleep` waits a fixed duration, not
for events; all other modeled calls return immediately. -/
def blocksUntilEvents : Act → Bool
  | .wl_display_roundtrip => true
  | _ => false

/-- The calls that destroy or tear down a library handle (the cleanup code
after the main loop, lines 289-307 and `destroy_egl`). -/
def isDestroyAct : Act → Bool
  | .zxdg_toplevel_decoration_destroy => true
  | .zxdg_decoration_manager_destroy => true
  | .eglMakeCurrentNull => true
  | .eglDestroySurface => true
  | .eglDestroyContext => true
  | .eglTerminate => true
  | .wl_egl_window_destroy => true
  | .xdg_toplevel_destroy => true
  | .xdg_surface_destroy => true
  | .wl_surface_destroy => true
  | .xdg_wm_base_destroy => true
  | .wl_compositor_destroy => true
  | .wl_registry_destroy => true
  | .wl_display_disconnect => true
  | _ => false

/-- The calls that concern the xdg-decoration objects. -/
def isDecorationAct : Act → Bool
  | .zxdg_get_toplevel_decoration => true
  | .zxdg_decoration_add_listener => true
  | .zxdg_set_mode _ => true
  | _ => false

/-- A canonical fully-successful environment: every call succeeds and the
compositor advertises all three globals the program binds. -/
def envAll : SetupEnv :=
  { displayOk := true,
    announced := ["wl_compositor", "xdg_wm_base", "zxdg_decoration_manager_v1"],
    eglGetDisplayOk := true, eglInitializeOk := true, eglChooseConfigOk := true,
    eglCreateContextOk := true, eglWindowCreateOk := true,
    eglCreateWindowSurfaceOk := true, eglMakeCurrentOk := true }

/-- The state at the top of the main loop on the successful setup path:
default size, `egl_window` created and EGL display/surface live. -/
def loopStartState : WinState :=
  { initState with hasEglWindow := true, eglLive := true }

/-- The calls of one loop iteration that dispatches no pending events,
written out as the flat list the loop body performs: viewport, clear color,
clear, swap, dispatch, flush, sleep. -/
def iterTraceNoEvents (t : Rat) (s : WinState) : List Act :=
  [.glViewport s.width s.height, .glClearColor t, .glClear, .eglSwapBuffers,
   .wl_display_dispatch_pending, .wl_display_flush, .usleep 16000]

/-- The trace of `n` event-free loop iterations starting at phase `t`:
each iteration advances the phase by `0.016` and performs
`iterTraceNoEvents`. -/
def specLoopTrace (t : Rat) (s : WinState) : Nat → List Act
  | 0 => []
  | n + 1 => iterTraceNoEvents (t + 0.016) s ++ specLoopTrace (t + 0.016) s n

/-- The full setup-phase call sequence on the all-success environment
`envAll`, written out flat: connect, registry + listener, the binds
performed during the first roundtrip, window creation including the
decoration request, the second roundtrip, and the EGL setup. -/
def setupTraceAll : List Act :=
  [.wl_display_connect, .wl_display_get_registry, .wl_registry_add_listener,
   .wl_registry_bind "wl_compositor" 4, .wl_registry_bind "xdg_wm_base" 1,
   .xdg_wm_base_add_listener, .wl_registry_bind "zxdg_decoration_manager_v1" 1,
   .wl_display_roundtrip,
   .wl_compositor_create_surface, .xdg_wm_base_get_xdg_surface,
   .xdg_surface_add_listener, .xdg_surface_get_toplevel,
   .xdg_toplevel_add_listener,
   .xdg_toplevel_set_title "wayland-egl-demo (with xdg-decoration request)",
   .zxdg_get_toplevel_decoration, .zxdg_decoration_add_listener,
   .zxdg_set_mode 2, .wl_surface_commit, .wl_display_roundtrip,
   .eglGetDisplayCall, .eglInitializeCall, .eglChooseConfigCount,
   .eglChooseConfigFill, .eglCreateContextCall, .wl_egl_window_create 640 480,
   .eglCreateWindowSurfaceCall, .eglMakeCurrentCall, .glViewport 640 480]

/-- The calls that can occur inside the main loop: the fixed per-iteration
body plus everything an event handler can emit. -/
def isLoopAct : Act → Bool
  | .glViewport _ _ => true
  | .glClearColor _ => true
  | .glClear => true
  | .eglSwapBuffers => true
  | .wl_display_dispatch_pending => true
  | .wl_display_flush => true
  | .usleep _ => true
  | .xdg_surface_ack_configure _ => true
  | .xdg_wm_base_pong _ => true
  | .wl_egl_window_resize _ _ => true
  | .fprintf_stderr _ => true
  | _ => false

/-- One call per library-owned handle, the call that creates it on the
successful setup path: display connection, registry, the three registry
binds that create the `wl_compositor`, `xdg_wm_base` and
`zxdg_decoration_manager_v1` proxies, `wl_surface`, xdg surface, xdg
toplevel, toplevel decoration, EGL display, EGL context, `wl_egl_window`
(at the initial 640x480), and EGL window surface. -/
def createActs : List Act :=
  [.wl_display_connect, .wl_display_get_registry,
   .wl_registry_bind "wl_compositor" 4, .wl_registry_bind "xdg_wm_base" 1,
   .wl_registry_bind "zxdg_decoration_manager_v1" 1,
   .wl_compositor_create_surface,
   .xdg_wm_base_get_xdg_surface, .xdg_surface_get_toplevel,
   .zxdg_get_toplevel_decoration, .eglGetDisplayCall, .eglCreateContextCall,
   .wl_egl_window_create 640 480, .eglCreateWindowSurfaceCall]

/-- The calls that create or obtain a library-owned handle, including the
registry binds that create the bound-global proxies. -/
def isCreateAct : Act → Bool
  | .wl_display_connect => true
  | .wl_display_get_registry => true
  | .wl_registry_bind _ _ => true
  | .wl_compositor_create_surface => true
  | .xdg_wm_base_get_xdg_surface => true
  | .xdg_surface_get_toplevel => true
  | .zxdg_get_toplevel_decoration => true
  | .eglGetDisplayCall => true
  | .eglCreateContextCall => true
  | .wl_egl_window_create _ _ => true
  | .eglCreateWindowSurfaceCall => true
  | _ => false

/-- C1.  Every setup-failure branch (display connection, missing
`wl_compositor`/`xdg_wm_base` global, and each EGL step) prints a
diagnostic to stderr and terminates the process at once with a nonzero
status: whenever `mainSetup` fails, the failure carries a nonempty stderr
message and exit code 1 (≠ 0), and the whole run's trace is exactly that
single stderr print followed by termination — no recovery, retry, or
further calls.  Each of the spec's listed failure points does take such a
branch, with its own diagnostic, while the all-success environment reaches
the loop. -/
theorem setup_failure_prints_and_exits_nonzero (env : SetupEnv) :
    (∀ f, mainSetup env = .error f →
        f.exitCode ≠ 0 ∧ f.stderrMsg ≠ "" ∧
        ∀ streams, mainRun env streams =
          ([.fprintf_stderr f.stderrMsg], some f.exitCode)) ∧
    mainSetup { envAll with displayOk := false } =
      .error { stderrMsg := "Failed to connect to Wayland display", exitCode := 1 } ∧
    mainSetup { envAll with announced := [] } =
      .error { stderrMsg := "Compositor or xdg_wm_base not available", exitCode := 1 } ∧
    mainSetup { envAll with announced := ["wl_compositor"] } =
      .error { stderrMsg := "Compositor or xdg_wm_base not available", exitCode := 1 } ∧
    mainSetup { envAll with eglGetDisplayOk := false } =
      .error { stderrMsg := "Failed to get EGL display", exitCode := 1 } ∧
    mainSetup { envAll with eglInitializeOk := false } =
      .error { stderrMsg := "Failed to initialize EGL", exitCode := 1 } ∧
    mainSetup { envAll with eglChooseConfigOk := false } =
      .error { stderrMsg := "No EGL configs", exitCode := 1 } ∧
    mainSetup { envAll with eglCreateContextOk := false } =
      .error { stderrMsg := "Failed to create EGL context", exitCode := 1 } ∧
    mainSetup { envAll with eglWindowCreateOk := false } =
      .error { stderrMsg := "Failed to create wl_egl_window", exitCode := 1 } ∧
    mainSetup { envAll with eglCreateWindowSurfaceOk := false } =
      .error { stderrMsg := "Failed to create EGL window surface", exitCode := 1 } ∧
    mainSetup { envAll with eglMakeCurrentOk := false } =
      .error { stderrMsg := "Failed to make EGL context current", exitCode := 1 } ∧
    setupSucceeds envAll = true := by
  refine ⟨?_, rfl, rfl, rfl, rfl, rfl, rfl, rfl, rfl, rfl, rfl, rfl⟩
  intro f hf
  have hmsg : f.exitCode ≠ 0 ∧ f.stderrMsg ≠ "" := by
    obtain ⟨d, anns, e1, e2, e3, e4, e5, e6, e7⟩ := env
    cases d <;> cases e1 <;> cases e2 <;> cases e3 <;> cases e4 <;> cases e5 <;>
      cases e6 <;> cases e7 <;> simp [mainSetup, create_egl] at hf
    all_goals try (split at hf)
    all_goals try (cases hf)
    all_goals exact ⟨by decide, by decide⟩
  refine ⟨hmsg.1, hmsg.2, ?_⟩
  intro streams
  simp [mainRun, hf]

/-- Witness for C1: instantiated at the environment whose display
connection fails, the setup error is the connect diagnostic with exit
status 1, and the whole run prints it and terminates. -/
theorem setup_failure_prints_and_exits_nonzero_witness :
    ({ stderrMsg := "Failed to connect to Wayland display", exitCode := 1 } :
        Failure).exitCode ≠ 0 ∧
    ∀ streams, mainRun { envAll with displayOk := false } streams =
      ([.fprintf_stderr "Failed to connect to Wayland display"], some 1) := by
  have h := (setup_failure_prints_and_exits_nonzero
      { envAll with displayOk := false }).1
      { stderrMsg := "Failed to connect to Wayland display", exitCode := 1 } rfl
  exact ⟨h.1, h.2.2⟩

/-- Every call an event handler can emit is a loop-body call (in
particular, never a create, destroy, or blocking call). -/
theorem handleEvent_acts_isLoopAct (s : WinState) (e : WEvent) :
    ∀ a ∈ (handleEvent s e).2.1, isLoopAct a = true := by
  cases e with
  | ping n =>
      intro a ha; simp [handleEvent, xdg_wm_base_ping] at ha; subst ha; rfl
  | surfaceConfigure n =>
      intro a ha; simp [handleEvent, xdg_surface_configure] at ha; subst ha; rfl
  | toplevelConfigure w h =>
      intro a ha
      simp only [handleEvent, xdg_toplevel_configure] at ha
      split at ha
      · simp only [List.mem_append] at ha
        rcases ha with ha | ha <;> split at ha <;> simp at ha <;> subst ha <;> rfl
      · simp at ha
  | toplevelClose =>
      intro a ha; simp [handleEvent] at ha
  | decorationConfigure m =>
      intro a ha
      simp only [handleEvent, decoration_configure] at ha
      split at ha <;> [skip; split at ha] <;> simp at ha <;> subst ha <;> rfl

/-- The exit code of one event dispatch: `none`, or `some 0` precisely from
a close event in the queue. -/
theorem dispatch_pending_exit (evs : List WEvent) :
    ∀ s, (dispatch_pending s evs).2.2 = none ∨
      ((dispatch_pending s evs).2.2 = some 0 ∧ WEvent.toplevelClose ∈ evs) := by
  induction evs with
  | nil => intro s; simp [dispatch_pending]
  | cons e rest ih =>
      intro s
      cases e with
      | ping n =>
          rcases ih s with h | ⟨h, hm⟩
          · simp [dispatch_pending, handleEvent, h]
          · simp [dispatch_pending, handleEvent, h, hm]
      | surfaceConfigure n =>
          rcases ih s with h | ⟨h, hm⟩
          · simp [dispatch_pending, handleEvent, h]
          · simp [dispatch_pending, handleEvent, h, hm]
      | toplevelConfigure w h =>
          rcases ih (xdg_toplevel_configure s w h).1 with h1 | ⟨h1, hm⟩
          · simp [dispatch_pending, handleEvent, h1]
          · simp [dispatch_pending, handleEvent, h1, hm]
      | toplevelClose => simp [dispatch_pending, handleEvent]
      | decorationConfigure m =>
          rcases ih s with h | ⟨h, hm⟩
          · simp [dispatch_pending, handleEvent, h]
          · simp [dispatch_pending, handleEvent, h, hm]

/-- Every call emitted during one event dispatch is a loop-body call. -/
theorem dispatch_pending_acts (evs : List WEvent) :
    ∀ s, ∀ a ∈ (dispatch_pending s evs).2.1, isLoopAct a = true := by
  induction evs with
  | nil => intro s a ha; simp [dispatch_pending] at ha
  | cons e rest ih =>
      intro s a ha
      simp only [dispatch_pending] at ha
      rcases hE : (handleEvent s e).2.2 with _ | c <;> rw [hE] at ha
      · simp only [List.mem_append] at ha
        rcases ha with ha | ha
        · exact handleEvent_acts_isLoopAct s e a ha
        · exact ih _ a ha
      · exact handleEvent_acts_isLoopAct s e a ha

/-- The loop-iteration trace and exit: the body's fixed calls around the
dispatch trace, with the flush and sleep only when no handler exited. -/
theorem loopIter_spec (t : Rat) (s : WinState) (evs : List WEvent) :
    (loopIter t s evs).2.2 = (dispatch_pending s evs).2.2 ∧
    (loopIter t s evs).1 = (dispatch_pending s evs).1 ∧
    (loopIter t s evs).2.1 =
      [.glViewport s.width s.height, .glClearColor t, .glClear, .eglSwapBuffers,
       .wl_display_dispatch_pending] ++ (dispatch_pending s evs).2.1 ++
      (if (dispatch_pending s evs).2.2 = none then
        [.wl_display_flush, .usleep 16000] else []) := by
  unfold loopIter
  rcases hE : (dispatch_pending s evs).2.2 with _ | c <;> simp [hE]

/-- C3 counterexample.  The claim says the toplevel-configure handler does
nothing beyond updating the stored size: on the event `w = 0, h = 0` from
the initial state the spec-worded handler leaves the state untouched, but
the code's handler additionally sets the `configured` flag, so the
resulting states differ. -/
theorem toplevel_configure_not_only_size :
    (xdg_toplevel_configure initState 0 0).1 ≠
      specToplevelConfigure initState 0 0 := by
  decide

/-- C3 (amended).  For every `xdg_surface.configure` event the handler
acknowledges the configure with the same serial it received.  For every
`xdg_toplevel.configure` event the resulting state is the spec-worded
last-known-size update (size stored only when `w > 0` and `h > 0`) with
the `configured` flag additionally set, and when the size is updated the
handler also resizes the EGL window and updates the GL viewport when those
objects exist. -/
theorem protocol_handlers_ack_and_store_size (serial : Nat) (s : WinState)
    (w h : Int) :
    xdg_surface_configure serial = [.xdg_surface_ack_configure serial] ∧
    (xdg_toplevel_configure s w h).1 =
      { specToplevelConfigure s w h with configured := true } ∧
    (xdg_toplevel_configure s w h).2 =
      (if 0 < w ∧ 0 < h then
        (if s.hasEglWindow then [.wl_egl_window_resize w h] else []) ++
        (if s.eglLive then [.glViewport w h] else [])
      else []) := by
  refine ⟨rfl, ?_, ?_⟩
  · unfold xdg_toplevel_configure specToplevelConfigure
    split <;> rfl
  · unfold xdg_toplevel_configure
    split <;> rfl

/-- C2.  The program's call sequence: on the all-success environment the
setup performs exactly connect, registry + listener, the binding roundtrip,
window creation, the configure roundtrip, and EGL creation, in that order
(`setupTraceAll`); every event-free loop iteration performs exactly
viewport, clear color, clear, swap, dispatch, flush, sleep; the claim's
four steps clear → swap → dispatch → sleep occur in that order inside
every iteration the process survives, whatever events its dispatch
handles; and a whole `n`-iteration run is the setup trace followed by the
iteration traces. -/
theorem program_call_sequence :
    mainSetup envAll = .ok setupTraceAll ∧
    (∀ t s, loopIter t s [] = (s, iterTraceNoEvents t s, none)) ∧
    (∀ t s, [Act.glClear, Act.eglSwapBuffers, Act.wl_display_dispatch_pending,
        Act.usleep 16000].Sublist (iterTraceNoEvents t s)) ∧
    (∀ (t : Rat) (s : WinState) (evs : List WEvent),
        (loopIter t s evs).2.2 = none →
        [Act.glClear, Act.eglSwapBuffers, Act.wl_display_dispatch_pending,
         Act.usleep 16000].Sublist (loopIter t s evs).2.1) ∧
    (∀ n, mainRun envAll (List.replicate n []) =
        (setupTraceAll ++ specLoopTrace 0 loopStartState n, none)) := by
  have hrep : ∀ m t s, runLoop t s (List.replicate m []) =
      (s, specLoopTrace t s m, none) := by
    intro m
    induction m with
    | zero => intro t s; rfl
    | succ k ih =>
        intro t s
        simp [List.replicate, runLoop, loopIter, dispatch_pending, specLoopTrace,
          iterTraceNoEvents, ih]
  refine ⟨rfl, ?_, ?_, ?_, ?_⟩
  · intro t s
    simp [loopIter, dispatch_pending, iterTraceNoEvents]
  · intro t s
    unfold iterTraceNoEvents
    repeat first
      | exact List.Sublist.slnil
      | apply List.Sublist.cons₂
      | apply List.Sublist.cons
  · intro t s evs hno
    have h := (loopIter_spec t s evs).2.2
    have he : (dispatch_pending s evs).2.2 = none := by
      rw [← (loopIter_spec t s evs).1]; exact hno
    rw [h, he]
    simp only [if_pos]
    rw [List.append_assoc]
    have h1 : [Act.glClear, Act.eglSwapBuffers,
        Act.wl_display_dispatch_pending].Sublist
        [Act.glViewport s.width s.height, Act.glClearColor t, Act.glClear,
         Act.eglSwapBuffers, Act.wl_display_dispatch_pending] := by
      repeat first
        | exact List.Sublist.slnil
        | apply List.Sublist.cons₂
        | apply List.Sublist.cons
    have h2 : [Act.usleep 16000].Sublist
        ((dispatch_pending s evs).2.1 ++
          [Act.wl_display_flush, Act.usleep 16000]) := by
      refine List.Sublist.trans ?_
        (List.sublist_append_right (dispatch_pending s evs).2.1
          [Act.wl_display_flush, Act.usleep 16000])
      repeat first
        | exact List.Sublist.slnil
        | apply List.Sublist.cons₂
        | apply List.Sublist.cons
    exact h1.append h2
  · intro n
    simp [mainRun, show mainSetup envAll = .ok setupTraceAll from rfl, hrep,
      loopStartState, initState]

/-- Witness for C2 at a concrete iteration whose dispatch handles a ping
event: the iteration survives and performs clear, swap, dispatch, sleep in
that order. -/
theorem program_call_sequence_witness :
    (loopIter 0.016 loopStartState [.ping 1]).2.2 = none ∧
    [Act.glClear, Act.eglSwapBuffers, Act.wl_display_dispatch_pending,
     Act.usleep 16000].Sublist (loopIter 0.016 loopStartState [.ping 1]).2.1 :=
  ⟨rfl, program_call_sequence.2.2.2.1 0.016 loopStartState [.ping 1] rfl⟩

/-- C5.  Every loop iteration that the process survives (no handler called
`exit` during its dispatch) ends with `usleep(16000)` — a fixed ~16 ms
sleep independent of the phase, the window size, the dispatched configure
events, and all other state. -/
theorem loop_iteration_ends_with_fixed_sleep (t : Rat) (s : WinState)
    (evs : List WEvent) (hno : (loopIter t s evs).2.2 = none) :
    (loopIter t s evs).2.1.getLast? = some (.usleep 16000) := by
  have h := (loopIter_spec t s evs).2.2
  have he : (dispatch_pending s evs).2.2 = none := by
    rw [← (loopIter_spec t s evs).1]; exact hno
  rw [h, he]
  simp only [if_pos]
  rw [List.append_assoc, List.getLast?_append, List.getLast?_append]
  rfl

/-- Witness for C5 at a concrete iteration (phase `0.016`, one configure
event pending): the iteration exits nowhere and its last call is
`usleep 16000`. -/
theorem loop_iteration_ends_with_fixed_sleep_witness :
    (loopIter 0.016 loopStartState [.surfaceConfigure 7]).2.2 = none ∧
    (loopIter 0.016 loopStartState [.surfaceConfigure 7]).2.1.getLast? =
      some (.usleep 16000) :=
  ⟨rfl, loop_iteration_ends_with_fixed_sleep 0.016 loopStartState
    [.surfaceConfigure 7] rfl⟩

/-- C6 counterexample.  The claim says the loop's Wayland event-dispatch
step blocks synchronously until events are handled; but in a concrete
iteration the dispatch step is `wl_display_dispatch_pending` and no call
the iteration performs blocks waiting for events. -/
theorem loop_dispatch_does_not_block_cex :
    Act.wl_display_dispatch_pending ∈ (loopIter 0.016 loopStartState []).2.1 ∧
    (loopIter 0.016 loopStartState []).2.1.all
      (fun a => !blocksUntilEvents a) = true :=
  ⟨by decide, by decide⟩

/-- C6 (amended).  The loop's dispatch step is the non-blocking
`wl_display_dispatch_pending`, handling only already-queued events: every
iteration contains that call, and no call any iteration performs blocks
waiting for events — the loop paces itself with the fixed sleep instead. -/
theorem loop_dispatch_nonblocking (t : Rat) (s : WinState)
    (evs : List WEvent) :
    Act.wl_display_dispatch_pending ∈ (loopIter t s evs).2.1 ∧
    ∀ a ∈ (loopIter t s evs).2.1, blocksUntilEvents a = false := by
  have h := (loopIter_spec t s evs).2.2
  constructor
  · rw [h]; simp
  · intro a ha
    rw [h] at ha
    simp only [List.mem_append] at ha
    rcases ha with (ha | ha) | ha
    · simp at ha
      rcases ha with rfl | rfl | rfl | rfl | rfl <;> rfl
    · have hl := dispatch_pending_acts evs s a ha
      revert hl
      cases a <;> simp [isLoopAct, blocksUntilEvents]
    · split at ha <;> simp at ha
      rcases ha with rfl | rfl <;> rfl

/-- Witness for C6 (amended) at a concrete iteration: the dispatch call
occurs and does not block for events. -/
theorem loop_dispatch_nonblocking_witness :
    Act.wl_display_dispatch_pending ∈
      (loopIter 0.032 loopStartState [.ping 3]).2.1 ∧
    blocksUntilEvents Act.wl_display_dispatch_pending = false :=
  ⟨(loop_dispatch_nonblocking 0.032 loopStartState [.ping 3]).1,
   (loop_dispatch_nonblocking 0.032 loopStartState [.ping 3]).2 _
     (loop_dispatch_nonblocking 0.032 loopStartState [.ping 3]).1⟩

/-- The registry fold binds the decoration manager exactly when the
compositor announced `zxdg_decoration_manager_v1` (or it was already
bound). -/
theorem bindGlobals_decoration (anns : List String) :
    ∀ g : Globals, ((bindGlobals g anns).1.decoration_manager = true ↔
      (g.decoration_manager = true ∨ "zxdg_decoration_manager_v1" ∈ anns)) := by
  induction anns with
  | nil => intro g; simp [bindGlobals]
  | cons i rest ih =>
      intro g
      simp only [bindGlobals, registry_handle_global]
      split_ifs with h1 h2 h3
      · subst h1; rw [ih]; simp
      · subst h2; rw [ih]; simp
      · subst h3; rw [ih]; simp [List.mem_cons]
      · rw [ih]; simp [List.mem_cons, Ne.symm h3]

/-- C4.  Server-side decorations are requested exactly when the compositor
advertises `zxdg_decoration_manager_v1`: the registry binds the decoration
manager iff that interface is announced; with the manager bound, window
creation creates the toplevel decoration and requests SERVER_SIDE mode;
without it, window creation performs no decoration call; and apart from the
three decoration calls both window-creation sequences are identical. -/
theorem decoration_requested_iff_advertised :
    (∀ anns, ((bindGlobals (Globals.mk false false false)
        anns).1.decoration_manager = true ↔
        "zxdg_decoration_manager_v1" ∈ anns)) ∧
    Act.zxdg_get_toplevel_decoration ∈ create_window true ∧
    Act.zxdg_set_mode ZXDG_TOPLEVEL_DECORATION_V1_MODE_SERVER_SIDE ∈
      create_window true ∧
    (∀ a ∈ create_window false, isDecorationAct a = false) ∧
    (create_window true).filter (fun a => !isDecorationAct a) =
      create_window false := by
  refine ⟨?_, by decide, by decide, by decide, by decide⟩
  intro anns
  rw [bindGlobals_decoration]
  simp

/-- Witness for C4: announcing only the decoration interface does bind the
manager, and a concrete non-decoration call of the bare window setup is not
a decoration call. -/
theorem decoration_requested_iff_advertised_witness :
    (bindGlobals (Globals.mk false false false)
      ["zxdg_decoration_manager_v1"]).1.decoration_manager = true ∧
    isDecorationAct Act.wl_surface_commit = false :=
  ⟨(decoration_requested_iff_advertised.1 ["zxdg_decoration_manager_v1"]).mpr
      (by decide),
   decoration_requested_iff_advertised.2.2.2.1 Act.wl_surface_commit (by decide)⟩

/-- C8.  The rendered output is the animated solid clear color: every
iteration at phase `t` submits `glClearColor` at that phase, whose color is
`(sin t * 0.5 + 0.5, sin (t+2) * 0.5 + 0.5, sin (t+4) * 0.5 + 0.5, 1)`;
the phase after `k+1` increments is `0.016 * (k+1)`; each of r, g, b lies
in [0, 1] and alpha is the constant 1; and each of r, g, b changes
strictly between the first and second iterations, so the color varies with
the iteration counter. -/
theorem clear_color_animated :
    (∀ (t : Rat) (s : WinState) (evs : List WEvent),
        Act.glClearColor t ∈ (loopIter t s evs).2.1) ∧
    (∀ k : Nat, tPhase k = 0.016 * (k + 1)) ∧
    (∀ t : Rat, 0 ≤ (clearColor t).1 ∧ (clearColor t).1 ≤ 1 ∧
        0 ≤ (clearColor t).2.1 ∧ (clearColor t).2.1 ≤ 1 ∧
        0 ≤ (clearColor t).2.2.1 ∧ (clearColor t).2.2.1 ≤ 1 ∧
        (clearColor t).2.2.2 = 1) ∧
    (clearColor (tPhase 0)).1 < (clearColor (tPhase 1)).1 ∧
    (clearColor (tPhase 1)).2.1 < (clearColor (tPhase 0)).2.1 ∧
    (clearColor (tPhase 1)).2.2.1 < (clearColor (tPhase 0)).2.2.1 := by
  have hpi3 := Real.pi_gt_three
  have hpi4 := Real.pi_le_four
  have h0 : ((tPhase 0 : Rat) : ℝ) = 0.016 := by norm_num [tPhase]
  have h1 : ((tPhase 1 : Rat) : ℝ) = 0.032 := by norm_num [tPhase]
  refine ⟨?_, ?_, ?_, ?_, ?_, ?_⟩
  · intro t s evs
    rw [(loopIter_spec t s evs).2.2]
    simp
  · intro k
    induction k with
    | zero => norm_num [tPhase]
    | succ n ih => rw [tPhase, ih]; push_cast; ring
  · intro t
    have hs1 := Real.neg_one_le_sin ((t : ℝ))
    have hs2 := Real.sin_le_one ((t : ℝ))
    have hs3 := Real.neg_one_le_sin ((t : ℝ) + 2.0)
    have hs4 := Real.sin_le_one ((t : ℝ) + 2.0)
    have hs5 := Real.neg_one_le_sin ((t : ℝ) + 4.0)
    have hs6 := Real.sin_le_one ((t : ℝ) + 4.0)
    simp only [clearColor]
    refine ⟨by linarith, by linarith, by linarith, by linarith, by linarith,
      by linarith, by norm_num⟩
  · simp only [clearColor, h0, h1]
    have hlt : Real.sin 0.016 < Real.sin 0.032 := by
      apply Real.sin_lt_sin_of_lt_of_le_pi_div_two
      · linarith
      · linarith
      · norm_num
    linarith
  · simp only [clearColor, h0, h1]
    have he : (0.032 : ℝ) + 2.0 = 2.032 := by norm_num
    have he2 : (0.016 : ℝ) + 2.0 = 2.016 := by norm_num
    rw [he, he2]
    have hlt : Real.sin 2.032 < Real.sin 2.016 := by
      rw [← Real.sin_pi_sub 2.032, ← Real.sin_pi_sub 2.016]
      apply Real.sin_lt_sin_of_lt_of_le_pi_div_two
      · linarith
      · linarith
      · norm_num
    linarith
  · simp only [clearColor, h0, h1]
    have he : (0.032 : ℝ) + 4.0 = 4.032 := by norm_num
    have he2 : (0.016 : ℝ) + 4.0 = 4.016 := by norm_num
    rw [he, he2]
    have hlt : Real.sin 4.032 < Real.sin 4.016 := by
      rw [← Real.sin_pi_sub 4.032, ← Real.sin_pi_sub 4.016]
      apply Real.sin_lt_sin_of_lt_of_le_pi_div_two
      · linarith
      · linarith
      · norm_num
    linarith

/-- Each handler preserves positivity of the stored size. -/
theorem handleEvent_size (s : WinState) (e : WEvent)
    (hw : 0 < s.width) (hh : 0 < s.height) :
    0 < (handleEvent s e).1.width ∧ 0 < (handleEvent s e).1.height := by
  cases e with
  | ping n => exact ⟨hw, hh⟩
  | surfaceConfigure n => exact ⟨hw, hh⟩
  | toplevelClose => exact ⟨hw, hh⟩
  | decorationConfigure m => exact ⟨hw, hh⟩
  | toplevelConfigure w h =>
      simp only [handleEvent, xdg_toplevel_configure]
      split
      · rename_i hc
        exact ⟨hc.1, hc.2⟩
      · exact ⟨hw, hh⟩

/-- Dispatching any event queue preserves positivity of the stored size. -/
theorem dispatch_pending_size (evs : List WEvent) :
    ∀ s : WinState, 0 < s.width → 0 < s.height →
      0 < (dispatch_pending s evs).1.width ∧
      0 < (dispatch_pending s evs).1.height := by
  induction evs with
  | nil => intro s hw hh; exact ⟨hw, hh⟩
  | cons e rest ih =>
      intro s hw hh
      have h1 := handleEvent_size s e hw hh
      simp only [dispatch_pending]
      split
      · exact h1
      · exact ih _ h1.1 h1.2

/-- Any number of loop iterations preserves positivity of the stored
size. -/
theorem runLoop_size (streams : List (List WEvent)) :
    ∀ (t : Rat) (s : WinState), 0 < s.width → 0 < s.height →
      0 < (runLoop t s streams).1.width ∧
      0 < (runLoop t s streams).1.height := by
  induction streams with
  | nil => intro t s hw hh; exact ⟨hw, hh⟩
  | cons evs rest ih =>
      intro t s hw hh
      have hd := dispatch_pending_size evs s hw hh
      have h1 : 0 < (loopIter (t + 0.016) s evs).1.width ∧
          0 < (loopIter (t + 0.016) s evs).1.height := by
        rw [(loopIter_spec (t + 0.016) s evs).2.1]
        exact hd
      simp only [runLoop]
      split
      · exact h1
      · exact ih _ _ h1.1 h1.2

/-- C9.  The stored window size stays strictly positive throughout
execution: it starts at 640x480, a toplevel-configure with a non-positive
width or height leaves it unchanged, and from any positive size every run
of the loop keeps both dimensions positive. -/
theorem size_positive_invariant :
    initState.width = 640 ∧ initState.height = 480 ∧
    (∀ (s : WinState) (w h : Int), ¬(0 < w ∧ 0 < h) →
        (xdg_toplevel_configure s w h).1.width = s.width ∧
        (xdg_toplevel_configure s w h).1.height = s.height) ∧
    (∀ (t : Rat) (s : WinState) (streams : List (List WEvent)),
        0 < s.width → 0 < s.height →
        0 < (runLoop t s streams).1.width ∧
        0 < (runLoop t s streams).1.height) := by
  refine ⟨rfl, rfl, ?_, ?_⟩
  · intro s w h hneg
    unfold xdg_toplevel_configure
    rw [if_neg hneg]
    exact ⟨rfl, rfl⟩
  · intro t s streams hw hh
    exact runLoop_size streams t s hw hh

/-- Witness for C9: a zero-size configure leaves the 640x480 size in
place, and a concrete two-iteration run (one degenerate configure, one
ping) ends with a positive size. -/
theorem size_positive_invariant_witness :
    ((xdg_toplevel_configure loopStartState 0 (-3)).1.width =
        loopStartState.width ∧
      (xdg_toplevel_configure loopStartState 0 (-3)).1.height =
        loopStartState.height) ∧
    (0 < (runLoop 0 loopStartState
        [[.toplevelConfigure 0 0], [.ping 5]]).1.width ∧
      0 < (runLoop 0 loopStartState
        [[.toplevelConfigure 0 0], [.ping 5]]).1.height) :=
  ⟨size_positive_invariant.2.2.1 loopStartState 0 (-3) (by decide),
   size_positive_invariant.2.2.2 0 loopStartState
     [[.toplevelConfigure 0 0], [.ping 5]] (by decide) (by decide)⟩

/-- The loop's exit status over any run: still running, or `exit(0)` from a
close event in one of the dispatched queues. -/
theorem runLoop_exit (streams : List (List WEvent)) :
    ∀ (t : Rat) (s : WinState), (runLoop t s streams).2.2 = none ∨
      ((runLoop t s streams).2.2 = some 0 ∧
        ∃ evs ∈ streams, WEvent.toplevelClose ∈ evs) := by
  induction streams with
  | nil => intro t s; left; rfl
  | cons evs rest ih =>
      intro t s
      simp only [runLoop]
      split
      · rename_i c hc
        have h1 := (loopIter_spec (t + 0.016) s evs).1
        rw [hc] at h1
        rcases dispatch_pending_exit evs s with hd | ⟨hd, hm⟩
        · rw [hd] at h1; cases h1
        · rw [hd] at h1
          right
          refine ⟨?_, evs, List.mem_cons_self evs rest, hm⟩
          simpa using h1
      · rcases ih (t + 0.016) (loopIter (t + 0.016) s evs).1 with h | ⟨h, e, he, hm⟩
        · left; exact h
        · right; exact ⟨h, e, List.mem_cons_of_mem _ he, hm⟩

/-- Every call of every loop iteration is a loop-body call. -/
theorem loopIter_acts (t : Rat) (s : WinState) (evs : List WEvent) :
    ∀ a ∈ (loopIter t s evs).2.1, isLoopAct a = true := by
  intro a ha
  rw [(loopIter_spec t s evs).2.2] at ha
  simp only [List.mem_append] at ha
  rcases ha with (ha | ha) | ha
  · simp at ha
    rcases ha with rfl | rfl | rfl | rfl | rfl <;> rfl
  · exact dispatch_pending_acts evs s a ha
  · split at ha <;> simp at ha
    rcases ha with rfl | rfl <;> rfl

/-- Every call of any run of the loop is a loop-body call. -/
theorem runLoop_acts (streams : List (List WEvent)) :
    ∀ (t : Rat) (s : WinState), ∀ a ∈ (runLoop t s streams).2.1,
      isLoopAct a = true := by
  induction streams with
  | nil => intro t s a ha; simp [runLoop] at ha
  | cons evs rest ih =>
      intro t s a ha
      simp only [runLoop] at ha
      split at ha
      · exact loopIter_acts _ _ _ a ha
      · simp only [List.mem_append] at ha
        rcases ha with ha | ha
        · exact loopIter_acts _ _ _ a ha
        · exact ih _ _ a ha

/-- The registry listener's calls never destroy anything. -/
theorem bindGlobals_acts_no_destroy (anns : List String) :
    ∀ (g : Globals) (a : Act), a ∈ (bindGlobals g anns).2 →
      isDestroyAct a = false := by
  induction anns with
  | nil => intro g a ha; simp [bindGlobals] at ha
  | cons i rest ih =>
      intro g a ha
      simp only [bindGlobals] at ha
      simp only [List.mem_append] at ha
      rcases ha with ha | ha
      · unfold registry_handle_global at ha
        split_ifs at ha <;> simp at ha <;>
          first
            | (rcases ha with rfl | rfl <;> rfl)
            | (subst ha; rfl)
      · exact ih _ a ha

/-- When `create_egl` succeeds its trace is the fixed EGL call list. -/
theorem create_egl_ok_eq (env : SetupEnv) (w h : Int) (as : List Act)
    (hok : create_egl env w h = .ok as) :
    as = [.eglGetDisplayCall, .eglInitializeCall, .eglChooseConfigCount,
      .eglChooseConfigFill, .eglCreateContextCall, .wl_egl_window_create w h,
      .eglCreateWindowSurfaceCall, .eglMakeCurrentCall, .glViewport w h] := by
  obtain ⟨d, anns, e1, e2, e3, e4, e5, e6, e7⟩ := env
  cases e1 <;> cases e2 <;> cases e3 <;> cases e4 <;> cases e5 <;> cases e6 <;>
    cases e7 <;> simp [create_egl] at hok
  exact hok.symm

/-- When the setup succeeds, its trace is the connect/registry prefix, the
binds of the announced globals, the two roundtrips around window creation,
and the EGL calls. -/
theorem mainSetup_ok_trace (env : SetupEnv) (as : List Act)
    (hok : mainSetup env = .ok as) :
    as = [.wl_display_connect, .wl_display_get_registry,
        .wl_registry_add_listener] ++
      (bindGlobals (Globals.mk false false false) env.announced).2 ++
      [.wl_display_roundtrip] ++
      create_window (bindGlobals (Globals.mk false false false)
        env.announced).1.decoration_manager ++
      [.wl_display_roundtrip] ++
      [.eglGetDisplayCall, .eglInitializeCall, .eglChooseConfigCount,
       .eglChooseConfigFill, .eglCreateContextCall,
       .wl_egl_window_create initState.width initState.height,
       .eglCreateWindowSurfaceCall, .eglMakeCurrentCall,
       .glViewport initState.width initState.height] := by
  unfold mainSetup at hok
  by_cases h1 : (!env.displayOk) = true
  · rw [if_pos h1] at hok; cases hok
  · rw [if_neg h1] at hok
    by_cases h2 : (!(bindGlobals (Globals.mk false false false)
        env.announced).1.compositor ||
        !(bindGlobals (Globals.mk false false false)
          env.announced).1.xdg_wm) = true
    · rw [if_pos h2] at hok; cases hok
    · rw [if_neg h2] at hok
      split at hok
      · cases hok
      · rename_i eglActs heq
        cases hok
        rw [create_egl_ok_eq env initState.width initState.height eglActs heq]

/-- The setup phase never destroys a handle. -/
theorem mainSetup_acts_no_destroy (env : SetupEnv) (as : List Act)
    (hok : mainSetup env = .ok as) : ∀ a ∈ as, isDestroyAct a = false := by
  intro a ha
  rw [mainSetup_ok_trace env as hok] at ha
  simp only [List.mem_append] at ha
  rcases ha with ((((ha | ha) | ha) | ha) | ha) | ha
  · fin_cases ha <;> rfl
  · exact bindGlobals_acts_no_destroy env.announced _ a ha
  · fin_cases ha <;> rfl
  · revert ha
    unfold create_window
    split <;> intro ha <;> fin_cases ha <;> rfl
  · fin_cases ha <;> rfl
  · fin_cases ha <;> rfl

/-- No call of any whole-program run destroys a handle. -/
theorem mainRun_no_destroy (env : SetupEnv) (streams : List (List WEvent)) :
    ∀ a ∈ (mainRun env streams).1, isDestroyAct a = false := by
  intro a ha
  unfold mainRun at ha
  split at ha
  · simp at ha; subst ha; rfl
  · rename_i as hok
    simp only [List.mem_append] at ha
    rcases ha with ha | ha
    · exact mainSetup_acts_no_destroy env as hok a ha
    · have hl := runLoop_acts streams _ _ a ha
      revert hl
      cases a <;> simp [isLoopAct, isDestroyAct]

/-- C10.  Once the loop is entered the process can terminate only through
the close handler's immediate `exit(0)`: the close handler returns exit
code 0 with no other effect; any run of the loop either is still running
or exited with code 0, the latter only when some dispatched queue carried
a close event; no run of the program ever performs a destroy call, so the
cleanup code after the loop (which is exactly destroy calls) is never
executed. -/
theorem loop_exit_only_via_close :
    (∀ s : WinState, handleEvent s .toplevelClose = (s, [], some 0)) ∧
    (∀ (t : Rat) (s : WinState) (streams : List (List WEvent)),
        (runLoop t s streams).2.2 = none ∨
        ((runLoop t s streams).2.2 = some 0 ∧
          ∃ evs ∈ streams, WEvent.toplevelClose ∈ evs)) ∧
    (∀ (env : SetupEnv) (streams : List (List WEvent)),
        ∀ a ∈ (mainRun env streams).1, isDestroyAct a = false) ∧
    (∀ a ∈ cleanup_acts (Globals.mk true true true), isDestroyAct a = true) :=
  ⟨fun _ => rfl,
   fun t s streams => runLoop_exit streams t s,
   fun env streams => mainRun_no_destroy env streams,
   by decide⟩

/-- Witness for C10: a run whose single iteration dispatches a close event
exits with status 0, and the connect call of a concrete run is not a
destroy. -/
theorem loop_exit_only_via_close_witness :
    ((runLoop 0 loopStartState [[WEvent.toplevelClose]]).2.2 = some 0 ∧
      ∃ evs ∈ [[WEvent.toplevelClose]], WEvent.toplevelClose ∈ evs) ∧
    isDestroyAct Act.wl_display_connect = false := by
  refine ⟨?_, loop_exit_only_via_close.2.2.1 envAll [] Act.wl_display_connect
    (by decide)⟩
  rcases loop_exit_only_via_close.2.1 0 loopStartState
    [[WEvent.toplevelClose]] with h | h
  · exact absurd h (by decide)
  · exact h

/-- C7 counterexample.  The claim says each library-owned handle is
destroyed by the program; but in the concrete complete run that terminates
via a close event, the `wl_surface` is created and the run's trace contains
no `wl_surface_destroy`. -/
theorem handles_never_destroyed_cex :
    (mainRun envAll [[WEvent.toplevelClose]]).2 = some 0 ∧
    Act.wl_compositor_create_surface ∈
      (mainRun envAll [[WEvent.toplevelClose]]).1 ∧
    Act.wl_surface_destroy ∉ (mainRun envAll [[WEvent.toplevelClose]]).1 :=
  ⟨by decide, by decide, by decide⟩

/-- A loop-body call is never a handle creation. -/
theorem isLoopAct_not_create (a : Act) (ha : isLoopAct a = true) :
    isCreateAct a = false := by
  revert ha
  cases a <;> simp [isLoopAct, isCreateAct]

/-- C7 (amended).  On the all-success environment each handle-creating
call appears exactly once, in the setup trace, and never again in any run
of the loop; the source's post-loop cleanup contains a destroy call for
every handle; but no run of the program ever executes a destroy call,
because the loop never exits normally. -/
theorem handles_created_once_never_destroyed :
    (∀ c ∈ createActs, setupTraceAll.countP (fun a => a == c) = 1) ∧
    (∀ (streams : List (List WEvent)) (t : Rat) (s : WinState),
        (runLoop t s streams).2.1.countP (fun a => isCreateAct a) = 0) ∧
    (∀ streams, (mainRun envAll streams).1 =
        setupTraceAll ++ (runLoop 0 loopStartState streams).2.1) ∧
    (∀ a ∈ [Act.zxdg_toplevel_decoration_destroy,
        Act.zxdg_decoration_manager_destroy, Act.eglDestroySurface,
        Act.eglDestroyContext, Act.eglTerminate, Act.wl_egl_window_destroy,
        Act.xdg_toplevel_destroy, Act.xdg_surface_destroy,
        Act.wl_surface_destroy, Act.xdg_wm_base_destroy,
        Act.wl_compositor_destroy, Act.wl_registry_destroy,
        Act.wl_display_disconnect],
      a ∈ cleanup_acts (Globals.mk true true true)) ∧
    (∀ (env : SetupEnv) (streams : List (List WEvent)),
        (mainRun env streams).1.countP (fun a => isDestroyAct a) = 0) := by
  refine ⟨by decide, ?_, ?_, by decide, ?_⟩
  · intro streams t s
    rw [List.countP_eq_zero]
    intro a ha
    simp only [Bool.not_eq_true]
    exact isLoopAct_not_create a (runLoop_acts streams t s a ha)
  · intro streams
    simp [mainRun, show mainSetup envAll = .ok setupTraceAll from rfl,
      loopStartState, initState]
  · intro env streams
    rw [List.countP_eq_zero]
    intro a ha
    simp only [Bool.not_eq_true]
    exact mainRun_no_destroy env streams a ha

/-- Witness for C7 (amended): the display-connect creation appears exactly
once in the setup trace, and a concrete terminating run performs no
destroy call. -/
theorem handles_created_once_never_destroyed_witness :
    setupTraceAll.countP (fun a => a == Act.wl_display_connect) = 1 ∧
    (mainRun envAll [[WEvent.toplevelClose]]).1.countP
      (fun a => isDestroyAct a) = 0 :=
  ⟨handles_created_once_never_destroyed.1 Act.wl_display_connect (by decide),
   handles_created_once_never_destroyed.2.2.2.2 envAll
     [[WEvent.toplevelClose]]⟩

end WaylandDemo
